import Mathlib

/-!
Verification of the GarageTracker core logic: the maintenance status
engine and the unit-conversion / formatting helpers.

The distance helpers are embedded from
`src/frontend/src/context/LanguageContext.js`; the dashboard and
car-detail list logic from `src/frontend/src/pages/Dashboard.js` and
`src/frontend/src/pages/CarDetail.js`.  JavaScript numbers are modelled
as `ℤ` (all distances in this program are integral) and exact rational
arithmetic stands in for the floating-point products with the constant
`1.60934`; `Math.round` is `⌊x + 1/2⌋` (JavaScript rounds halves toward
positive infinity).  A possibly-missing JavaScript value
(`undefined`/`null`) is an `Option`.

The backend that computes task statuses and applies the
request-replacement mutation is not part of the frontend sources; those
pieces are modelled from the specification and are marked
`Modelled from the spec:` in their doc comments.
-/

namespace GarageTracker

/-- JavaScript `Math.round`, over exact rationals: nearest integer,
halves toward positive infinity, i.e. `⌊q + 1/2⌋`. -/
def jsRound (q : ℚ) : ℤ := ⌊q + 1/2⌋

/-- The miles→kilometres factor `1.60934` used by `convertDistance`
(`src/frontend/src/context/LanguageContext.js`), as an exact rational. -/
def kmFactor : ℚ := 160934 / 100000

/-- JavaScript `String.prototype.trim`: drop leading and trailing
whitespace.  (Defined over the character list so that it reduces by
`decide`.) -/
def jsTrim (s : String) : String :=
  String.mk
    (((s.toList.dropWhile Char.isWhitespace).reverse.dropWhile
        Char.isWhitespace).reverse)

namespace LanguageContext

/-- `convertDistance(value, toUnit)` from
`src/frontend/src/context/LanguageContext.js`:

```js
const convertDistance = (value, toUnit = distanceUnit) => {
  if (!value) return 0;
  if (toUnit === 'km') {
    return Math.round(value * 1.60934);
  }
  return value; // Already in miles
};
```

For an integral JavaScript number `value`, `!value` is true exactly when
`value` is `0`. -/
def convertDistance (value : ℤ) (toUnit : String) : ℤ :=
  if value = 0 then 0
  else if toUnit = "km" then jsRound ((value : ℚ) * kmFactor)
  else value

/-- Digit grouping of `Number.prototype.toLocaleString` (default
`en-US` locale): walk the reversed digit string and insert a comma
before every third digit. -/
def commifyRev : List Char → Nat → List Char
  | [], _ => []
  | c :: cs, i =>
    if i ≠ 0 ∧ i % 3 = 0 then ',' :: c :: commifyRev cs (i + 1)
    else c :: commifyRev cs (i + 1)

/-- `n.toLocaleString()` for an integral JavaScript number: decimal
digits with `en-US` thousands separators, a leading `-` when negative. -/
def toLocaleString (n : ℤ) : String :=
  let grouped := (commifyRev (toString n.natAbs).toList.reverse 0).reverse
  (if n < 0 then "-" else "") ++ String.mk grouped

/-- `formatDistance(value, showUnit)` from
`src/frontend/src/context/LanguageContext.js`:

```js
const formatDistance = (value, showUnit = true) => {
  if (!value && value !== 0) return 'N/A';
  const converted = convertDistance(value);
  const unit = distanceUnit === 'km' ? 'km' : 'mi';
  return showUnit ? `${converted.toLocaleString()} ${unit}` : converted.toLocaleString();
};
```

`!value && value !== 0` holds exactly for a missing value (`none`): a
present `0` is falsy but fails `value !== 0`. The provider state
`distanceUnit` is passed explicitly. -/
def formatDistance (value : Option ℤ) (distanceUnit : String)
    (showUnit : Bool) : String :=
  match value with
  | none => "N/A"
  | some v =>
    let converted := convertDistance v distanceUnit
    let unit := if distanceUnit = "km" then "km" else "mi"
    if showUnit then toLocaleString converted ++ " " ++ unit
    else toLocaleString converted

/-- Modelled from the spec: `toCanonical(displayValue, unit)` — the
km→miles direction of the unit converter.  No such function exists under
`src/` (the frontend only converts miles→km for display), so it is taken
from the spec's words: "if `unit == kilometers`, returns
`round(displayValue / 1.60934)`; else returns `displayValue`
unchanged". -/
def toCanonical (displayValue : ℤ) (unit : String) : ℤ :=
  if unit = "km" then jsRound ((displayValue : ℚ) / kmFactor)
  else displayValue

/-- JavaScript `x || y` where `x` is a possibly-missing string: a
missing or empty (falsy) `x` selects `y`. -/
def jsOrString (x : Option String) (fallback : String) : String :=
  match x with
  | some s => if s = "" then fallback else s
  | none => fallback

/-- `t(key)` from `src/frontend/src/context/LanguageContext.js`:

```js
const t = (key) => {
  return translations[language]?.[key] || translations['en']?.[key] || key;
};
```

The translations table (`src/frontend/src/i18n/translations.js`) is not
under `src/`, so it is an abstract parameter: `table lang key = none`
models both an unsupported language (optional chaining on `undefined`)
and a missing key. -/
def t (table : String → String → Option String) (language : String)
    (key : String) : String :=
  jsOrString (table language key) (jsOrString (table "en" key) key)

/-- A concrete translations table in which the selected language has an
empty-string translation for a key and English has a non-empty one. -/
def tableWithEmptyEntry : String → String → Option String :=
  fun lang key =>
    if lang = "fr" ∧ key = "hello" then some ""
    else if lang = "en" ∧ key = "hello" then some "Hello"
    else none

/-- A concrete translations table with one ordinary entry, used to
witness the fallback chain. -/
def sampleTable : String → String → Option String :=
  fun lang key =>
    if lang = "en" ∧ key = "greet" then some "Hello" else none

end LanguageContext

/-- A maintenance task as the frontend receives it from the backend API:
`status` is an open string computed server-side, the rest are the task's
stored fields (`src/frontend/src/pages/CarDetail.js`). -/
structure Task where
  status : String
  replacement_requested : Bool
  replacement_reason : Option String
  last_performed_mileage : ℤ
  interval_miles : ℤ
  interval_months : ℤ
deriving DecidableEq

namespace CarDetail

/-- `isReplacementRequested` from `src/frontend/src/pages/CarDetail.js`
(line 529):

```js
const isReplacementRequested = task.status === 'replacement_requested' || task.replacement_requested;
``` -/
def isReplacementRequested (task : Task) : Bool :=
  task.status == "replacement_requested" || task.replacement_requested

/-- The status badge text from `src/frontend/src/pages/CarDetail.js`
(lines 556–558):

```js
{isReplacementRequested ? 'Needs Replacement' :
 task.status === 'overdue' ? 'Overdue' :
 task.status === 'due_soon' ? 'Due Soon' : 'Good'}
``` -/
def badgeLabel (task : Task) : String :=
  if isReplacementRequested task then "Needs Replacement"
  else if task.status == "overdue" then "Overdue"
  else if task.status == "due_soon" then "Due Soon"
  else "Good"

/-- The four health-status counters of `getStatusCounts`
(`src/frontend/src/pages/CarDetail.js`, lines 239–249). -/
structure StatusCounts where
  good : ℕ
  due_soon : ℕ
  overdue : ℕ
  replacement_requested : ℕ
deriving DecidableEq

/-- One iteration of the `tasks.forEach` loop of `getStatusCounts`:

```js
if (counts.hasOwnProperty(t.status)) { counts[t.status]++; }
else { counts.good++; }
```

`hasOwnProperty` is true exactly for the four own keys of `counts`. -/
def countTask (c : StatusCounts) (task : Task) : StatusCounts :=
  if task.status = "good" then { c with good := c.good + 1 }
  else if task.status = "due_soon" then { c with due_soon := c.due_soon + 1 }
  else if task.status = "overdue" then { c with overdue := c.overdue + 1 }
  else if task.status = "replacement_requested" then
    { c with replacement_requested := c.replacement_requested + 1 }
  else { c with good := c.good + 1 }

/-- `getStatusCounts` from `src/frontend/src/pages/CarDetail.js`:
fold the loop body over the task list starting from all-zero counts. -/
def getStatusCounts (tasks : List Task) : StatusCounts :=
  tasks.foldl countTask ⟨0, 0, 0, 0⟩

/-- Map a status string that is not one of the four counted labels to
`"good"` (used to state that unrecognised statuses are tallied under
`good`). -/
def normalizeStatus (s : String) : String :=
  if s = "good" ∨ s = "due_soon" ∨ s = "overdue" ∨
    s = "replacement_requested" then s else "good"

/-- Requesting replacement for a task.  The guard is
`handleRequestReplacement` from `src/frontend/src/pages/CarDetail.js`
(lines 151–167): an empty or whitespace-only reason
(`!replacementReason.trim()`) shows an error and returns without calling
the API, so the task is unchanged.

Modelled from the spec: the backend
`POST /maintenance/{id}/request-replacement` endpoint is not under
`src/`; per the spec it "sets `replacementRequested = true` and stores
the reason, leaving mileage/interval fields untouched". -/
def requestReplacement (task : Task) (reason : String) :
    Except String Task :=
  if jsTrim reason = "" then
    Except.error "Please provide a reason for replacement"
  else
    Except.ok { task with
      replacement_requested := true
      replacement_reason := some reason }

/-- A sample task for the concrete witnesses. -/
def sampleTask : Task :=
  { status := "good"
    replacement_requested := false
    replacement_reason := none
    last_performed_mileage := 50000
    interval_miles := 5000
    interval_months := 6 }

/-- A sample task whose replacement flag is set while its status string
says `"good"`. -/
def sampleReplacementTask : Task :=
  { sampleTask with replacement_requested := true }

end CarDetail

namespace Dashboard

/-- `upcomingTasks` from `src/frontend/src/pages/Dashboard.js`
(lines 140–143):

```js
const upcomingTasks = tasks
  .filter(t => t.status === 'due_soon' || t.status === 'overdue')
  .sort((a, b) => (a.status === 'overdue' ? -1 : 1))
  .slice(0, 5);
```

The comparator returns `-1` exactly when `a.status === 'overdue'`, so as
a boolean "less-or-equal" it is `a.status == "overdue"`. -/
def upcomingTasks (tasks : List Task) : List Task :=
  ((tasks.filter fun task =>
      task.status == "due_soon" || task.status == "overdue").mergeSort
    fun a _b => a.status == "overdue").take 5

/-- A sample task list for the concrete witnesses. -/
def sampleTaskList : List Task :=
  [ { status := "due_soon", replacement_requested := false,
      replacement_reason := none, last_performed_mileage := 50000,
      interval_miles := 5000, interval_months := 6 },
    { status := "good", replacement_requested := false,
      replacement_reason := none, last_performed_mileage := 0,
      interval_miles := 15000, interval_months := 12 },
    { status := "overdue", replacement_requested := false,
      replacement_reason := none, last_performed_mileage := 20000,
      interval_miles := 30000, interval_months := 24 },
    { status := "banana", replacement_requested := false,
      replacement_reason := none, last_performed_mileage := 0,
      interval_miles := 1000, interval_months := 1 } ]

end Dashboard

/-- A calendar date (proleptic Gregorian). -/
structure CivilDate where
  year : ℤ
  month : ℤ
  day : ℤ
deriving DecidableEq

/-- Gregorian leap-year rule. -/
def isLeapYear (y : ℤ) : Bool :=
  y % 4 == 0 && (y % 100 != 0 || y % 400 == 0)

/-- Number of days in a month. -/
def daysInMonth (y m : ℤ) : ℤ :=
  if m = 2 then (if isLeapYear y then 29 else 28)
  else if m = 4 ∨ m = 6 ∨ m = 9 ∨ m = 11 then 30
  else 31

/-- Calendar-month addition with day-of-month clamping (the spec's
"Jan 31 + 1 month → Feb 28/29"). -/
def addMonths (d : CivilDate) (n : ℤ) : CivilDate :=
  let total := d.month - 1 + n
  let y := d.year + total / 12
  let m := total % 12 + 1
  ⟨y, m, min d.day (daysInMonth y m)⟩

/-- Days since 1970-01-01 of a civil date (the standard `days_from_civil`
computation; `ℤ` division here is Euclidean, which floors for positive
divisors, so no negative-year adjustment is needed). -/
def toEpochDay (d : CivilDate) : ℤ :=
  let y := if d.month ≤ 2 then d.year - 1 else d.year
  let era := y / 400
  let yoe := y - era * 400
  let mp := (d.month + 9) % 12
  let doy := (153 * mp + 2) / 5 + d.day - 1
  let doe := yoe * 365 + yoe / 4 - yoe / 100 + doy
  era * 146097 + doe - 719468

/-- The derived status labels. -/
inductive Status where
  | good
  | due_soon
  | overdue
  | replacement_requested
deriving DecidableEq

/-- Due-soon mileage window (spec §4.1, default 500). -/
def DUE_SOON_MILES_THRESHOLD : ℤ := 500

/-- Due-soon day window (spec §4.1, default 14). -/
def DUE_SOON_DAYS_THRESHOLD : ℤ := 14

/-- Modelled from the spec: step 5 of the StatusEngine algorithm
(§4.1) — the backend that classifies tasks is not under `src/`.
Precedence order: replacement override, then overdue, then due-soon,
then good; the mileage and date triggers are independent ORs. -/
def classify (replacementRequested : Bool)
    (milesRemaining daysRemaining : ℤ) : Status :=
  if replacementRequested then Status.replacement_requested
  else if milesRemaining ≤ 0 ∨ daysRemaining ≤ 0 then Status.overdue
  else if milesRemaining ≤ DUE_SOON_MILES_THRESHOLD ∨
      daysRemaining ≤ DUE_SOON_DAYS_THRESHOLD then Status.due_soon
  else Status.good

/-- Inputs of the StatusEngine (spec §4.1). -/
structure StatusInput where
  lastPerformedMileage : ℤ
  lastPerformedDate : CivilDate
  intervalMiles : ℤ
  intervalMonths : ℤ
  currentMileage : ℤ
  today : CivilDate
  replacementRequested : Bool
deriving DecidableEq

/-- Output of the StatusEngine (spec §4.1). -/
structure StatusOutput where
  nextDueMileage : ℤ
  nextDueDate : CivilDate
  status : Status
deriving DecidableEq

/-- Modelled from the spec: the StatusEngine (§4.1) — it runs in the
backend, which is not under `src/`.  Steps: `nextDueMileage =
lastPerformedMileage + intervalMiles`; `nextDueDate = lastPerformedDate
+ intervalMonths months`; `milesRemaining = nextDueMileage -
currentMileage`; `daysRemaining = nextDueDate - today` in days; then the
classification of `classify`.  Non-positive intervals fail with a
`ValidationError` (spec §4.1 failure conditions). -/
def statusEngine (i : StatusInput) : Except String StatusOutput :=
  if i.intervalMiles ≤ 0 ∨ i.intervalMonths ≤ 0 then
    Except.error "ValidationError: interval must be positive"
  else
    let nextDueMileage := i.lastPerformedMileage + i.intervalMiles
    let nextDueDate := addMonths i.lastPerformedDate i.intervalMonths
    let milesRemaining := nextDueMileage - i.currentMileage
    let daysRemaining := toEpochDay nextDueDate - toEpochDay i.today
    Except.ok
      ⟨nextDueMileage, nextDueDate,
        classify i.replacementRequested milesRemaining daysRemaining⟩

/-- The spec's §8 scenario: `lastPerformedMileage=50000,
intervalMiles=5000, lastPerformedDate=2024-01-15, intervalMonths=6,
currentMileage=54600, today=2024-06-01, replacementRequested=false`. -/
def scenario : StatusInput :=
  { lastPerformedMileage := 50000
    lastPerformedDate := ⟨2024, 1, 15⟩
    intervalMiles := 5000
    intervalMonths := 6
    currentMileage := 54600
    today := ⟨2024, 6, 1⟩
    replacementRequested := false }

/-! ## Theorems -/

theorem jsRound_le (q : ℚ) : (jsRound q : ℚ) ≤ q + 1/2 :=
  Int.floor_le (q + 1/2)

theorem lt_jsRound (q : ℚ) : q - 1/2 < (jsRound q : ℚ) := by
  have h := Int.lt_floor_add_one (q + 1/2)
  unfold jsRound
  linarith

theorem jsRound_eq_of (q : ℚ) (n : ℤ) (h1 : (n : ℚ) ≤ q + 1/2)
    (h2 : q + 1/2 < n + 1) : jsRound q = n :=
  Int.floor_eq_iff.mpr ⟨h1, h2⟩

/-- Sanity check of the date model: clamping at a month boundary. -/
theorem addMonths_clamps : addMonths ⟨2024, 1, 31⟩ 1 = ⟨2024, 2, 29⟩ := by
  decide

/-- Sanity check of the date model: the epoch itself. -/
theorem toEpochDay_epoch : toEpochDay ⟨1970, 1, 1⟩ = 0 := by decide

/-- Sanity check of the date model: the spec's scenario dates are 44
days apart. -/
theorem scenario_days_remaining :
    toEpochDay ⟨2024, 7, 15⟩ - toEpochDay ⟨2024, 6, 1⟩ = 44 := by decide

/-- C2: for every non-negative integral distance `m` stored in miles,
`convertDistance` returns `m` unchanged for unit `miles` and
`round(m * 1.60934)` for unit `km`; in particular
`convertDistance 100 "miles" = 100` and `convertDistance 100 "km" = 161`. -/
theorem convertDistance_toDisplay (m : ℤ) (hm : 0 ≤ m) :
    LanguageContext.convertDistance m "miles" = m ∧
    LanguageContext.convertDistance m "km" = jsRound ((m : ℚ) * kmFactor) ∧
    LanguageContext.convertDistance 100 "miles" = 100 ∧
    LanguageContext.convertDistance 100 "km" = 161 := by
  refine ⟨?_, ?_, by simp [LanguageContext.convertDistance], ?_⟩
  · by_cases h : m = 0 <;> simp [LanguageContext.convertDistance, h]
  · by_cases h : m = 0
    · subst h
      simp [LanguageContext.convertDistance]
      symm
      apply jsRound_eq_of <;> norm_num [kmFactor]
    · simp [LanguageContext.convertDistance, h]
  · simp only [LanguageContext.convertDistance]
    norm_num
    apply jsRound_eq_of <;> norm_num [kmFactor]

/-- Witness for C2 at `m = 100`. -/
theorem convertDistance_toDisplay_witness :
    (0 : ℤ) ≤ 100 ∧
    (LanguageContext.convertDistance 100 "miles" = 100 ∧
      LanguageContext.convertDistance 100 "km" =
        jsRound ((100 : ℚ) * kmFactor) ∧
      LanguageContext.convertDistance 100 "miles" = 100 ∧
      LanguageContext.convertDistance 100 "km" = 161) :=
  ⟨by norm_num, convertDistance_toDisplay 100 (by norm_num)⟩

/-- C4 counterexample: formatting a present zero distance with the unit
suffix enabled yields the rendered number `"0 mi"`, not the `"N/A"`
placeholder (the guard `!value && value !== 0` deliberately lets `0`
through). -/
theorem formatDistance_zero_counterexample :
    LanguageContext.formatDistance (some 0) "miles" true = "0 mi" ∧
    ("0 mi" : String) ≠ "N/A" := by
  constructor
  · rfl
  · decide

/-- C4 (amended): only a missing (`undefined`/`null`) distance renders
as the `"N/A"` placeholder; a present zero renders as `"0"` with the
unit suffix (`"0 mi"`). -/
theorem formatDistance_missing_placeholder (u : String) (s : Bool) :
    LanguageContext.formatDistance none u s = "N/A" ∧
    LanguageContext.formatDistance (some 0) "miles" true = "0 mi" :=
  ⟨rfl, rfl⟩

theorem convertDistance_neg5_km :
    LanguageContext.convertDistance (-5) "km" = -8 := by
  unfold LanguageContext.convertDistance
  norm_num
  apply jsRound_eq_of <;> norm_num [kmFactor]

/-- C5 counterexample: a negative distance is not rejected — there is no
`ValidationError` anywhere in the conversion code; `convertDistance`
converts `-5` miles to `-8` km and `formatDistance` renders it as
`"-8 km"`. -/
theorem convertDistance_negative_counterexample :
    LanguageContext.convertDistance (-5) "km" = -8 ∧
    LanguageContext.formatDistance (some (-5)) "km" true = "-8 km" := by
  refine ⟨convertDistance_neg5_km, ?_⟩
  simp only [LanguageContext.formatDistance, convertDistance_neg5_km]
  rfl

/-- C5 (amended): negative inputs are accepted, not rejected: the
conversion returns them converted like any other value (unchanged for
miles, `round(v * 1.60934)` for km) and the formatter renders them with
the unit suffix. -/
theorem convertDistance_negative_accepted (v : ℤ) (hv : v < 0) :
    LanguageContext.convertDistance v "miles" = v ∧
    LanguageContext.convertDistance v "km" = jsRound ((v : ℚ) * kmFactor) ∧
    LanguageContext.formatDistance (some v) "miles" true =
      LanguageContext.toLocaleString v ++ " mi" := by
  have hv0 : v ≠ 0 := by omega
  refine ⟨?_, ?_, ?_⟩
  · simp [LanguageContext.convertDistance, hv0]
  · simp [LanguageContext.convertDistance, hv0]
  · simp [LanguageContext.formatDistance, LanguageContext.convertDistance,
      hv0, String.append_assoc]

/-- Witness for C5 (amended) at `v = -5`. -/
theorem convertDistance_negative_accepted_witness :
    (-5 : ℤ) < 0 ∧
    (LanguageContext.convertDistance (-5) "miles" = -5 ∧
      LanguageContext.convertDistance (-5) "km" =
        jsRound ((-5 : ℚ) * kmFactor) ∧
      LanguageContext.formatDistance (some (-5)) "miles" true =
        LanguageContext.toLocaleString (-5) ++ " mi") :=
  ⟨by norm_num, convertDistance_negative_accepted (-5) (by norm_num)⟩

/-- C6: converting a mile value to kilometres for display and back with
`toCanonical` recovers it to within one mile (in fact exactly, since
`1/(2·1.60934) + 1/2 < 1`). -/
theorem toCanonical_toDisplay_roundtrip (m : ℤ) (h0 : 0 ≤ m)
    (h1 : m ≤ 1000000) :
    |LanguageContext.toCanonical
        (LanguageContext.convertDistance m "km") "km" - m| ≤ 1 := by
  by_cases hm : m = 0
  · subst hm
    have hz : LanguageContext.convertDistance 0 "km" = 0 := by
      simp [LanguageContext.convertDistance]
    rw [hz]
    have hz2 : LanguageContext.toCanonical 0 "km" = 0 := by
      unfold LanguageContext.toCanonical
      norm_num
      apply jsRound_eq_of <;> norm_num [kmFactor]
    rw [hz2]
    norm_num
  · have hconv : LanguageContext.convertDistance m "km"
        = jsRound ((m : ℚ) * kmFactor) := by
      simp [LanguageContext.convertDistance, hm]
    rw [hconv]
    have hcan : LanguageContext.toCanonical (jsRound ((m : ℚ) * kmFactor)) "km"
        = jsRound ((jsRound ((m : ℚ) * kmFactor) : ℚ) / kmFactor) := by
      simp [LanguageContext.toCanonical]
    rw [hcan]
    set k := jsRound ((m : ℚ) * kmFactor) with hkdef
    set n := jsRound ((k : ℚ) / kmFactor) with hndef
    have hr : (0 : ℚ) < kmFactor := by norm_num [kmFactor]
    have hk1 : (k : ℚ) ≤ (m : ℚ) * kmFactor + 1/2 := jsRound_le _
    have hk2 : (m : ℚ) * kmFactor - 1/2 < (k : ℚ) := lt_jsRound _
    have hn1 : (n : ℚ) ≤ (k : ℚ) / kmFactor + 1/2 := jsRound_le _
    have hn2 : (k : ℚ) / kmFactor - 1/2 < (n : ℚ) := lt_jsRound _
    have hd : (k : ℚ) / kmFactor * kmFactor = (k : ℚ) :=
      div_mul_cancel₀ _ (ne_of_gt hr)
    have hn1' : (n : ℚ) * kmFactor ≤ (k : ℚ) + kmFactor / 2 := by
      have h := mul_le_mul_of_nonneg_right hn1 (le_of_lt hr)
      rw [add_mul, hd] at h
      linarith
    have hn2' : (k : ℚ) - kmFactor / 2 < (n : ℚ) * kmFactor := by
      have h := mul_lt_mul_of_pos_right hn2 hr
      rw [sub_mul, hd] at h
      linarith
    rw [kmFactor] at hk1 hk2 hn1' hn2'
    have hq1 : (n : ℚ) < (m : ℚ) + 1 := by linarith
    have hq2 : (m : ℚ) < (n : ℚ) + 1 := by linarith
    have hz1 : n < m + 1 := by exact_mod_cast hq1
    have hz2 : m < n + 1 := by exact_mod_cast hq2
    have heq : n = m := by omega
    rw [heq]
    simp

/-- Witness for C6 at `m = 100` (display value `161` km, canonical
recovery `100` miles). -/
theorem toCanonical_toDisplay_roundtrip_witness :
    (0 : ℤ) ≤ 100 ∧ (100 : ℤ) ≤ 1000000 ∧
    |LanguageContext.toCanonical
        (LanguageContext.convertDistance 100 "km") "km" - 100| ≤ 1 :=
  ⟨by norm_num, by norm_num,
    toCanonical_toDisplay_roundtrip 100 (by norm_num) (by norm_num)⟩

/-- C3: whenever a task's `replacement_requested` flag is true, the
badge shown for it is `"Needs Replacement"`, regardless of its status
string (and hence of any mileage/date-derived classification). -/
theorem badgeLabel_replacement_override (task : Task)
    (h : task.replacement_requested = true) :
    CarDetail.badgeLabel task = "Needs Replacement" := by
  simp [CarDetail.badgeLabel, CarDetail.isReplacementRequested, h]

/-- Witness for C3: a task whose computed status is `"good"` but whose
replacement flag is set is labelled `"Needs Replacement"`. -/
theorem badgeLabel_replacement_override_witness :
    CarDetail.sampleReplacementTask.replacement_requested = true ∧
    CarDetail.badgeLabel CarDetail.sampleReplacementTask =
      "Needs Replacement" :=
  ⟨rfl, badgeLabel_replacement_override CarDetail.sampleReplacementTask rfl⟩

/-- C7: requesting replacement with an empty or whitespace-only reason
fails with the validation error and changes nothing; a non-empty reason
succeeds, sets the flag, stores the reason, and leaves the status,
mileage and interval fields untouched. -/
theorem requestReplacement_correct (task : Task) (reason : String) :
    (jsTrim reason = "" →
      CarDetail.requestReplacement task reason =
        Except.error "Please provide a reason for replacement") ∧
    (jsTrim reason ≠ "" →
      ∃ task2, CarDetail.requestReplacement task reason = Except.ok task2 ∧
        task2.replacement_requested = true ∧
        task2.replacement_reason = some reason ∧
        task2.status = task.status ∧
        task2.last_performed_mileage = task.last_performed_mileage ∧
        task2.interval_miles = task.interval_miles ∧
        task2.interval_months = task.interval_months) := by
  constructor
  · intro h
    simp [CarDetail.requestReplacement, h]
  · intro h
    refine ⟨{ task with
        replacement_requested := true
        replacement_reason := some reason },
      ?_, rfl, rfl, rfl, rfl, rfl, rfl⟩
    simp [CarDetail.requestReplacement, h]

/-- Witness for C7: a whitespace-only reason is rejected and a real
reason is stored, for the sample task. -/
theorem requestReplacement_correct_witness :
    (jsTrim "   " = "" ∧
      CarDetail.requestReplacement CarDetail.sampleTask "   " =
        Except.error "Please provide a reason for replacement") ∧
    (jsTrim "worn out" ≠ "" ∧
      ∃ task2, CarDetail.requestReplacement CarDetail.sampleTask "worn out" =
          Except.ok task2 ∧
        task2.replacement_requested = true ∧
        task2.replacement_reason = some "worn out" ∧
        task2.status = CarDetail.sampleTask.status ∧
        task2.last_performed_mileage =
          CarDetail.sampleTask.last_performed_mileage ∧
        task2.interval_miles = CarDetail.sampleTask.interval_miles ∧
        task2.interval_months = CarDetail.sampleTask.interval_months) :=
  ⟨⟨by decide,
      (requestReplacement_correct CarDetail.sampleTask "   ").1 (by decide)⟩,
    ⟨by decide,
      (requestReplacement_correct CarDetail.sampleTask "worn out").2
        (by decide)⟩⟩

/-- C8: the dashboard's upcoming-maintenance selection contains only
tasks whose status is `due_soon` or `overdue`, and at most 5 of them. -/
theorem upcomingTasks_spec (tasks : List Task) :
    (∀ task ∈ Dashboard.upcomingTasks tasks,
      task.status = "due_soon" ∨ task.status = "overdue") ∧
    (Dashboard.upcomingTasks tasks).length ≤ 5 := by
  constructor
  · intro task h
    have h1 := List.mem_of_mem_take h
    rw [List.mem_mergeSort] at h1
    have h2 := (List.mem_filter.mp h1).2
    simpa using h2
  · have := List.length_take 5
      ((tasks.filter fun task =>
          task.status == "due_soon" || task.status == "overdue").mergeSort
        fun a _b => a.status == "overdue")
    simp only [Dashboard.upcomingTasks]
    omega

/-- Witness for C8 on the sample task list. -/
theorem upcomingTasks_spec_witness :
    (∀ task ∈ Dashboard.upcomingTasks Dashboard.sampleTaskList,
      task.status = "due_soon" ∨ task.status = "overdue") ∧
    (Dashboard.upcomingTasks Dashboard.sampleTaskList).length ≤ 5 :=
  upcomingTasks_spec Dashboard.sampleTaskList

theorem countTask_total (c : CarDetail.StatusCounts) (task : Task) :
    (CarDetail.countTask c task).good + (CarDetail.countTask c task).due_soon +
      (CarDetail.countTask c task).overdue +
      (CarDetail.countTask c task).replacement_requested =
    c.good + c.due_soon + c.overdue + c.replacement_requested + 1 := by
  unfold CarDetail.countTask
  split_ifs <;> simp <;> omega

theorem foldl_countTask_total (tasks : List Task) (c : CarDetail.StatusCounts) :
    (tasks.foldl CarDetail.countTask c).good +
      (tasks.foldl CarDetail.countTask c).due_soon +
      (tasks.foldl CarDetail.countTask c).overdue +
      (tasks.foldl CarDetail.countTask c).replacement_requested =
    c.good + c.due_soon + c.overdue + c.replacement_requested +
      tasks.length := by
  induction tasks generalizing c with
  | nil => simp
  | cons task rest ih =>
    simp only [List.foldl_cons, List.length_cons]
    rw [ih]
    have h := countTask_total c task
    omega

theorem countTask_normalize (c : CarDetail.StatusCounts) (task : Task) :
    CarDetail.countTask c
      { task with status := CarDetail.normalizeStatus task.status } =
    CarDetail.countTask c task := by
  by_cases h1 : task.status = "good"
  · simp [CarDetail.countTask, CarDetail.normalizeStatus, h1]
  by_cases h2 : task.status = "due_soon"
  · simp [CarDetail.countTask, CarDetail.normalizeStatus, h1, h2]
  by_cases h3 : task.status = "overdue"
  · simp [CarDetail.countTask, CarDetail.normalizeStatus, h1, h2, h3]
  by_cases h4 : task.status = "replacement_requested"
  · simp [CarDetail.countTask, CarDetail.normalizeStatus, h1, h2, h3, h4]
  · simp [CarDetail.countTask, CarDetail.normalizeStatus, h1, h2, h3, h4]

theorem foldl_countTask_normalize (tasks : List Task)
    (c : CarDetail.StatusCounts) :
    (tasks.map fun task =>
        { task with status := CarDetail.normalizeStatus task.status }).foldl
      CarDetail.countTask c = tasks.foldl CarDetail.countTask c := by
  induction tasks generalizing c with
  | nil => simp
  | cons task rest ih =>
    simp only [List.map_cons, List.foldl_cons, countTask_normalize]
    exact ih _

/-- C9: the health-status tally returns four (naturally non-negative)
counts whose sum is the number of tasks, and a task whose status string
is not one of the four counted labels is tallied under `good` (replacing
such a status by `"good"` leaves the tally unchanged). -/
theorem getStatusCounts_spec (tasks : List Task) :
    ((CarDetail.getStatusCounts tasks).good +
        (CarDetail.getStatusCounts tasks).due_soon +
        (CarDetail.getStatusCounts tasks).overdue +
        (CarDetail.getStatusCounts tasks).replacement_requested =
      tasks.length) ∧
    CarDetail.getStatusCounts (tasks.map fun task =>
        { task with status := CarDetail.normalizeStatus task.status }) =
      CarDetail.getStatusCounts tasks := by
  constructor
  · simpa [CarDetail.getStatusCounts] using
      foldl_countTask_total tasks ⟨0, 0, 0, 0⟩
  · exact foldl_countTask_normalize tasks ⟨0, 0, 0, 0⟩

/-- C10 counterexample: with a table holding an empty-string translation
for the selected language (and a non-empty English one), `t` does not
return the selected language's translation even though it is present —
JavaScript `||` skips the falsy empty string. -/
theorem t_empty_translation_counterexample :
    LanguageContext.tableWithEmptyEntry "fr" "hello" = some "" ∧
    LanguageContext.t LanguageContext.tableWithEmptyEntry "fr" "hello" =
      "Hello" ∧
    ("Hello" : String) ≠ "" := by
  refine ⟨rfl, rfl, by decide⟩

/-- C10 (amended): `t` is total — it always returns a string, never
`undefined`, even for an unsupported language code — and follows the
fallback chain with JavaScript truthiness: the selected language's
translation when present and non-empty, else the English translation
when present and non-empty, else the key itself. -/
theorem t_total_fallback (table : String → String → Option String)
    (language key : String) :
    (∀ v, table language key = some v → v ≠ "" →
      LanguageContext.t table language key = v) ∧
    ((table language key = none ∨ table language key = some "") →
      ∀ v, table "en" key = some v → v ≠ "" →
        LanguageContext.t table language key = v) ∧
    ((table language key = none ∨ table language key = some "") →
      (table "en" key = none ∨ table "en" key = some "") →
      LanguageContext.t table language key = key) := by
  refine ⟨?_, ?_, ?_⟩
  · intro v hv hne
    simp [LanguageContext.t, LanguageContext.jsOrString, hv, hne]
  · rintro (h | h) v hv hne <;>
      simp [LanguageContext.t, LanguageContext.jsOrString, h, hv, hne]
  · rintro (h | h) (h2 | h2) <;>
      simp [LanguageContext.t, LanguageContext.jsOrString, h, h2]

/-- Witness for C10 (amended): the three arms of the fallback chain on
concrete tables. -/
theorem t_total_fallback_witness :
    (LanguageContext.sampleTable "en" "greet" = some "Hello" ∧
      ("Hello" : String) ≠ "" ∧
      LanguageContext.t LanguageContext.sampleTable "en" "greet" =
        "Hello") ∧
    (LanguageContext.sampleTable "de" "greet" = none ∧
      LanguageContext.t LanguageContext.sampleTable "de" "greet" =
        "Hello") ∧
    (LanguageContext.sampleTable "de" "bye" = none ∧
      LanguageContext.sampleTable "en" "bye" = none ∧
      LanguageContext.t LanguageContext.sampleTable "de" "bye" = "bye") :=
  ⟨⟨rfl, by decide,
      (t_total_fallback LanguageContext.sampleTable "en" "greet").1 "Hello"
        rfl (by decide)⟩,
    ⟨rfl,
      (t_total_fallback LanguageContext.sampleTable "de" "greet").2.1
        (Or.inl rfl) "Hello" rfl (by decide)⟩,
    ⟨rfl, rfl,
      (t_total_fallback LanguageContext.sampleTable "de" "bye").2.2
        (Or.inl rfl) (Or.inl rfl)⟩⟩

theorem classify_overdue_iff (mr dr : ℤ) :
    classify false mr dr = Status.overdue ↔ mr ≤ 0 ∨ dr ≤ 0 := by
  unfold classify DUE_SOON_MILES_THRESHOLD DUE_SOON_DAYS_THRESHOLD
  split_ifs with h1 h2 <;> simp_all

theorem classify_due_soon_iff (mr dr : ℤ) :
    classify false mr dr = Status.due_soon ↔
      ¬(mr ≤ 0 ∨ dr ≤ 0) ∧ (mr ≤ 500 ∨ dr ≤ 14) := by
  unfold classify DUE_SOON_MILES_THRESHOLD DUE_SOON_DAYS_THRESHOLD
  split_ifs with h1 h2 <;> simp_all

theorem classify_good_iff (mr dr : ℤ) :
    classify false mr dr = Status.good ↔
      ¬(mr ≤ 0 ∨ dr ≤ 0) ∧ ¬(mr ≤ 500 ∨ dr ≤ 14) := by
  unfold classify DUE_SOON_MILES_THRESHOLD DUE_SOON_DAYS_THRESHOLD
  split_ifs with h1 h2 <;> simp_all

/-- C1: for a task that is not flagged for replacement and has positive
intervals, the StatusEngine succeeds with `nextDueMileage =
lastPerformedMileage + intervalMiles`; the status is `overdue` iff
`currentMileage ≥ nextDueMileage` OR `today ≥ nextDueDate`; `due_soon`
iff neither overdue trigger fired and `nextDueMileage - currentMileage ≤
500` OR at most 14 days remain; `good` otherwise — the two triggers are
independent ORs. -/
theorem statusEngine_classification (i : StatusInput)
    (hrep : i.replacementRequested = false)
    (hmi : 0 < i.intervalMiles) (hmo : 0 < i.intervalMonths) :
    ∃ o, statusEngine i = Except.ok o ∧
      o.nextDueMileage = i.lastPerformedMileage + i.intervalMiles ∧
      (o.status = Status.overdue ↔
        i.currentMileage ≥ o.nextDueMileage ∨
          toEpochDay i.today ≥ toEpochDay o.nextDueDate) ∧
      (o.status = Status.due_soon ↔
        ¬(i.currentMileage ≥ o.nextDueMileage ∨
            toEpochDay i.today ≥ toEpochDay o.nextDueDate) ∧
          (o.nextDueMileage - i.currentMileage ≤ 500 ∨
            toEpochDay o.nextDueDate - toEpochDay i.today ≤ 14)) ∧
      (o.status = Status.good ↔
        ¬(i.currentMileage ≥ o.nextDueMileage ∨
            toEpochDay i.today ≥ toEpochDay o.nextDueDate) ∧
          ¬(o.nextDueMileage - i.currentMileage ≤ 500 ∨
            toEpochDay o.nextDueDate - toEpochDay i.today ≤ 14)) := by
  have hcond : ¬(i.intervalMiles ≤ 0 ∨ i.intervalMonths ≤ 0) := by omega
  unfold statusEngine
  rw [if_neg hcond]
  rw [hrep]
  refine ⟨_, rfl, rfl, ?_, ?_, ?_⟩
  · dsimp only
    rw [classify_overdue_iff]
    omega
  · dsimp only
    rw [classify_due_soon_iff]
    omega
  · dsimp only
    rw [classify_good_iff]
    omega

/-- Witness for C1 at the spec's §8 scenario (`milesRemaining = 400`,
44 days remaining, so `due_soon`). -/
theorem statusEngine_classification_witness :
    scenario.replacementRequested = false ∧
    0 < scenario.intervalMiles ∧ 0 < scenario.intervalMonths ∧
    (∃ o, statusEngine scenario = Except.ok o ∧
      o.nextDueMileage =
        scenario.lastPerformedMileage + scenario.intervalMiles ∧
      (o.status = Status.overdue ↔
        scenario.currentMileage ≥ o.nextDueMileage ∨
          toEpochDay scenario.today ≥ toEpochDay o.nextDueDate) ∧
      (o.status = Status.due_soon ↔
        ¬(scenario.currentMileage ≥ o.nextDueMileage ∨
            toEpochDay scenario.today ≥ toEpochDay o.nextDueDate) ∧
          (o.nextDueMileage - scenario.currentMileage ≤ 500 ∨
            toEpochDay o.nextDueDate - toEpochDay scenario.today ≤ 14)) ∧
      (o.status = Status.good ↔
        ¬(scenario.currentMileage ≥ o.nextDueMileage ∨
            toEpochDay scenario.today ≥ toEpochDay o.nextDueDate) ∧
          ¬(o.nextDueMileage - scenario.currentMileage ≤ 500 ∨
            toEpochDay o.nextDueDate - toEpochDay scenario.today ≤ 14))) :=
  ⟨rfl, by decide, by decide,
    statusEngine_classification scenario rfl (by decide) (by decide)⟩

/-- Sanity check: the spec's §8 scenario evaluates to `due_soon` with
`nextDueMileage = 55000` and `nextDueDate = 2024-07-15`. -/
theorem statusEngine_scenario_eval :
    statusEngine scenario =
      Except.ok ⟨55000, ⟨2024, 7, 15⟩, Status.due_soon⟩ := by
  rfl

/-- Sanity check: the same task at `currentMileage = 55200` is
`overdue` (mileage trigger crossed) regardless of date. -/
theorem statusEngine_scenario_overdue_eval :
    statusEngine { scenario with currentMileage := 55200 } =
      Except.ok ⟨55000, ⟨2024, 7, 15⟩, Status.overdue⟩ := by
  rfl

end GarageTracker
